import Mathlib

/-!
Verification of the sheet-extent discovery and range-streaming protocol of
the `microsoft-excel-handler` repository (`src/excel_handler.py`,
`src/errors.py`), as a shallow embedding in Lean 4.

A sheet is modelled as a total grid of cell values (`Grid`); an absent cell
holds the `Val.empty` sentinel.  The Python `while self.sheet.Cells(..).value:`
loops test COM cell values for Python truthiness, so `Val.truthy` follows
Python semantics: `None`, `0`, `""` and `False` are all falsy.  The unbounded
while loops of the Extent Scanner are embedded with explicit fuel: a result of
`none` means the loop did not stop within the given fuel, and divergence is
`none` for every fuel.
-/

namespace ExcelHandler

/-- A scalar cell value as delivered by the backend: empty/absent, text,
number, or boolean. -/
inductive Val where
  | empty : Val
  | str : String → Val
  | num : Int → Val
  | boolean : Bool → Val
deriving DecidableEq, Repr

/-- Python truthiness of a COM cell value, as tested by
`while self.sheet.Cells(1, column_count).value:` in the source:
`None`, `0`, `""` and `False` are falsy, everything else truthy. -/
def Val.truthy : Val → Bool
  | .empty => false
  | .str s => s ≠ ""
  | .num n => n ≠ 0
  | .boolean b => b

/-- Whether a cell value is the empty/absent sentinel (the spec's notion of
an unpopulated cell).  Distinct from `Val.truthy`: a cell holding `0` or `""`
is populated but falsy. -/
def Val.isEmpty : Val → Bool
  | .empty => true
  | _ => false

/-- A sheet: a total assignment of cell values to 1-based (row, column)
positions; absent cells are `Val.empty`. -/
abbrev Grid := Nat → Nat → Val

/-- Python truthiness of an optional integer argument, as tested by
`all((rows_count, columns_count))` in `fetch_all`: `None` and `0` are falsy. -/
def truthyNat : Option Nat → Bool
  | none => false
  | some n => n ≠ 0

/-- Python truthiness of an optional string argument, as tested by
`if not sheet_name:` in `set_sheet`: `None` and `""` are falsy. -/
def truthyStr : Option String → Bool
  | none => false
  | some s => s ≠ ""

/-- The probing loop shared by `get_columns_count` and `get_rows_count`
(src/excel_handler.py lines 99-102 and 111-114): starting at index `k`,
`while cell(k).truthy do k := k + 1; return k - 1`, with explicit fuel.
`none` means the loop did not stop within `fuel` iterations. -/
def probe (cell : Nat → Val) : Nat → Nat → Option Nat
  | 0, _ => none
  | fuel + 1, k => if (cell k).truthy then probe cell fuel (k + 1) else some (k - 1)

/-- `ExcelHandler.get_columns_count`: scan row 1 from column 1 until a falsy
cell is met, returning the number of preceding columns. -/
def get_columns_count (g : Grid) (fuel : Nat) : Option Nat :=
  probe (fun c => g 1 c) fuel 1

/-- `ExcelHandler.get_rows_count`: scan column 1 from row 1 until a falsy
cell is met, returning the number of preceding rows. -/
def get_rows_count (g : Grid) (fuel : Nat) : Option Nat :=
  probe (fun r => g r 1) fuel 1

/-- The exceptions a call on the handler can surface.  `src/errors.py`
defines exactly two concrete exception classes, `NotFoundExcelFileError`
(`fileNotFound`) and `NotFoundSheetError` (`sheetNotFound`), both subclasses
of `CustomBaseException`; there is no invalid-region error class.
`attributeError` is Python's generic `AttributeError`, raised when a method
touches `self.sheet` before any sheet was bound. -/
inductive PyErr where
  | fileNotFound : PyErr
  | sheetNotFound : PyErr
  | attributeError : PyErr
deriving DecidableEq, Repr

/-- Whether an exception belongs to the repository's own hierarchy
(`CustomBaseException` in `src/errors.py`).  Python's `AttributeError`
does not. -/
def PyErr.isCustom : PyErr → Bool
  | .fileNotFound => true
  | .sheetNotFound => true
  | .attributeError => false

/-- The mutable session state managed by `ExcelHandler` that the claims are
about: the currently bound sheet, as a 1-based index into the workbook's
sheet list (`none` before any `set_sheet`). -/
structure Session where
  sheet : Option Nat
deriving DecidableEq, Repr

/-- The sheet-scanning `for` loop of `set_sheet` (src/excel_handler.py lines
84-90): each iteration first assigns `self.sheet = Sheets(sheet_number)`,
then breaks on a case-sensitive name match; the `for/else` clause raises
`NotFoundSheetError` when the loop finishes without a break.  `names` is the
suffix of sheet names still to visit and `idx` the 1-based index of its
head. -/
def scanSheets (names : List String) (target : String) (idx : Nat) (s : Session) :
    Session × Option PyErr :=
  match names with
  | [] => (s, some PyErr.sheetNotFound)
  | n :: rest =>
      let s' : Session := { s with sheet := some idx }
      if n = target then (s', none)
      else scanSheets rest target (idx + 1) s'

/-- `ExcelHandler.set_sheet`: `if not sheet_name:` (so both `None` and `""`)
binds sheet index 1; otherwise scans sheets `1..count` for a name match.
`workBookSheets` is the workbook's sheet-name list in index order.  Returns
the session state after the call together with the raised exception, if
any. -/
def set_sheet (workBookSheets : List String) (sheet_name : Option String) (s : Session) :
    Session × Option PyErr :=
  if truthyStr sheet_name = false then ({ s with sheet := some 1 }, none)
  else
    match sheet_name with
    | some target => scanSheets workBookSheets target 1 s
    | none => ({ s with sheet := some 1 }, none)

/-- The workbook-level backend operations that `open_excel` performs, in
order, used to show the failure path contacts the backend not at all. -/
inductive BackendCall where
  | workbooksOpen : String → BackendCall
  | workbooksIndex : Nat → BackendCall
deriving DecidableEq, Repr

/-- `ExcelHandler.open_excel` (src/excel_handler.py lines 53-64):
`if not exists(file_path): raise NotFoundExcelFileError(...)`, and only then
`Workbooks.open(file_path)`, `WorkBooks(1)` and `set_sheet(sheet_name)`.
`fileExists` models the `os.path.exists` check; the first component of the
result is the ordered trace of backend calls issued. -/
def open_excel (fileExists : String → Bool) (workBookSheets : List String)
    (file_path : String) (sheet_name : Option String) (s : Session) :
    List BackendCall × (Session × Option PyErr) :=
  if fileExists file_path = false then ([], (s, some PyErr.fileNotFound))
  else
    ([BackendCall.workbooksOpen file_path, BackendCall.workbooksIndex 1],
      set_sheet workBookSheets sheet_name s)

/-- Modelled from the spec: the Backend Adapter's `rangeValues` primitive
(§6), an external collaborator not implemented in this repository.  Per §4.2
it returns the values of the rectangular region from `start` to `e`
inclusive in row-major order, one entry per position, absent cells carrying
the empty sentinel.  With 1-based inclusive bounds the region spans
`e.1 + 1 - start.1` rows of `e.2 + 1 - start.2` cells each (empty when the
end lies before the start, by truncated subtraction). -/
def rangeValues (g : Grid) (start e : Nat × Nat) : List (List Val) :=
  (List.range (e.1 + 1 - start.1)).map fun i =>
    (List.range (e.2 + 1 - start.2)).map fun j => g (start.1 + i) (start.2 + j)

/-- `ExcelHandler.fetch_range` (src/excel_handler.py lines 140-151): builds
`self.sheet.Range(Cells(*start), Cells(*end))` and yields its values, with
no validation of its own.  When no sheet is bound, touching `self.sheet`
raises Python's `AttributeError`; otherwise the region is delegated to the
backend unchecked. -/
def fetch_range (sheet : Option Grid) (start e : Nat × Nat) :
    Except PyErr (List (List Val)) :=
  match sheet with
  | none => Except.error PyErr.attributeError
  | some g => Except.ok (rangeValues g start e)

/-- `ExcelHandler.fetch_all` (src/excel_handler.py lines 116-138):
`if not all((rows_count, columns_count)):` recompute **both** counts via the
Extent Scanner (so `None` or `0` in either position discards both supplied
values); then `yield from self.fetch_range((1, 1), (rows_count,
columns_count))`.  The bound sheet is `g`; `none` means an extent scan did
not terminate within `fuel`. -/
def fetch_all (g : Grid) (fuel : Nat) (rows_count columns_count : Option Nat) :
    Option (List (List Val)) :=
  if (truthyNat rows_count && truthyNat columns_count) = false then
    match get_columns_count g fuel, get_rows_count g fuel with
    | some c, some r => (fetch_range (some g) (1, 1) (r, c)).toOption
    | _, _ => none
  else
    match rows_count, columns_count with
    | some r, some c => (fetch_range (some g) (1, 1) (r, c)).toOption
    | _, _ => none

/-- One step of building a Python `dict` from key/value pairs: an existing
key has its value overwritten in place (keeping its original position), a
new key is appended. -/
def dictInsert (m : List (String × Val)) (k : String) (v : Val) :
    List (String × Val) :=
  if m.any (fun p => p.1 = k) then
    m.map fun p => if p.1 = k then (p.1, v) else p
  else m ++ [(k, v)]

/-- Python's `dict(pairs)`: fold the pairs left to right into an
insertion-ordered mapping, later duplicates overwriting earlier ones. -/
def pyDict (pairs : List (String × Val)) : List (String × Val) :=
  pairs.foldl (fun m kv => dictInsert m kv.1 kv.2) []

/-- `ExcelHandler.get_as_dict` (src/excel_handler.py lines 153-160): for
each data row, yield `dict(zip(headers, row))`. -/
def get_as_dict (headers : List String) (data : List (List Val)) :
    List (List (String × Val)) :=
  data.map fun row => pyDict (headers.zip row)

/-- The keys of a Python-dict model. -/
def dictKeys (m : List (String × Val)) : List String :=
  m.map Prod.fst

/-- The spec's §8 scenario sheet: row 1 = ["Name", "Age"], row 2 =
["Alice", 30], row 3 = ["Bob", 25], every other cell absent. -/
def demoGrid : Grid := fun r c =>
  if r = 1 ∧ c = 1 then Val.str "Name"
  else if r = 1 ∧ c = 2 then Val.str "Age"
  else if r = 2 ∧ c = 1 then Val.str "Alice"
  else if r = 2 ∧ c = 2 then Val.num 30
  else if r = 3 ∧ c = 1 then Val.str "Bob"
  else if r = 3 ∧ c = 2 then Val.num 25
  else Val.empty

/-- A sheet whose row 1 holds the populated (non-empty) values `0` and `5`
in columns 1 and 2, followed by absent cells. -/
def zeroFirstGrid : Grid := fun r c =>
  if r = 1 ∧ c = 1 then Val.num 0
  else if r = 1 ∧ c = 2 then Val.num 5
  else Val.empty

/-- A sheet with no empty cell anywhere: every cell holds `5`, except that
cell (1, 2) holds the populated but falsy value `0`. -/
def noEmptyGrid : Grid := fun r c =>
  if r = 1 ∧ c = 2 then Val.num 0 else Val.num 5

/-- The entirely empty sheet. -/
def emptyGrid : Grid := fun _ _ => Val.empty

/-- Every cell of row 1 of `g` is populated (not the empty sentinel). -/
def rowOnePopulated (g : Grid) : Prop :=
  ∀ c, 1 ≤ c → (g 1 c).isEmpty = false

/-- Key lemma on the probing loop: if the `m` cells at indices
`k, k+1, ..., k+m-1` are truthy and the cell at `k+m` is falsy, the loop
started at `k` stops there and returns `k + m - 1`, for any fuel `> m`. -/
theorem probe_stops (cell : Nat → Val) :
    ∀ (m k fuel : Nat),
      (∀ i, i < m → (cell (k + i)).truthy = true) →
      (cell (k + m)).truthy = false →
      m < fuel →
      probe cell fuel k = some (k + m - 1) := by
  intro m
  induction m with
  | zero =>
      intro k fuel _ hstop hfuel
      match fuel, hfuel with
      | fuel + 1, _ =>
          simp only [probe]
          rw [show k + 0 = k from rfl] at hstop
          simp [hstop]
  | succ m ih =>
      intro k fuel hall hstop hfuel
      match fuel, hfuel with
      | fuel + 1, hfuel =>
          have hk : (cell k).truthy = true := by
            have := hall 0 (Nat.succ_pos m)
            simpa using this
          simp only [probe, hk, if_true]
          have h1 : ∀ i, i < m → (cell (k + 1 + i)).truthy = true := by
            intro i hi
            have := hall (i + 1) (Nat.succ_lt_succ hi)
            have he : k + (i + 1) = k + 1 + i := by omega
            rwa [he] at this
          have h2 : (cell (k + 1 + m)).truthy = false := by
            have he : k + 1 + m = k + (m + 1) := by omega
            rwa [he]
          have h3 : m < fuel := Nat.lt_of_succ_lt_succ hfuel
          have := ih (k + 1) fuel h1 h2 h3
          rw [this]
          congr 1
          omega

/-- If every cell from index `k` on (indices ≥ k) is truthy, the probing loop
never stops, whatever the fuel. -/
theorem probe_diverges (cell : Nat → Val)
    (k : Nat) (hall : ∀ i, k ≤ i → (cell i).truthy = true) :
    ∀ fuel, probe cell fuel k = none := by
  intro fuel
  induction fuel generalizing k with
  | zero => rfl
  | succ fuel ih =>
      simp only [probe, hall k (Nat.le_refl k), if_true]
      exact ih (k + 1) (fun i hi => hall i (Nat.le_of_succ_le hi))

/-- When the scanning loop raises `sheetNotFound`, the session is unchanged
only if the suffix scanned was empty; otherwise the bound sheet ends at the
last visited index `idx + names.length - 1`. -/
theorem scanSheets_error_state (names : List String) (target : String) :
    ∀ (idx : Nat) (s s' : Session),
      scanSheets names target idx s = (s', some PyErr.sheetNotFound) →
      (names = [] ∧ s' = s) ∨ s'.sheet = some (idx + names.length - 1) := by
  induction names with
  | nil =>
      intro idx s s' h
      simp only [scanSheets, Prod.mk.injEq] at h
      exact Or.inl ⟨rfl, h.1.symm⟩
  | cons n rest ih =>
      intro idx s s' h
      simp only [scanSheets] at h
      by_cases hn : n = target
      · simp [hn] at h
      · rw [if_neg hn] at h
        rcases ih (idx + 1) { s with sheet := some idx } s' h with ⟨hrest, hs⟩ | hs
        · subst hrest
          subst hs
          right
          simp
        · right
          rw [hs]
          congr 1
          simp [List.length_cons]

/-- When the target occurs in the scanned suffix, the loop stops at its
first occurrence and raises nothing; the bound sheet becomes
`idx + indexOf target`. -/
theorem scanSheets_found (names : List String) (target : String) :
    ∀ (idx : Nat) (s : Session), target ∈ names →
      scanSheets names target idx s =
        (⟨some (idx + names.indexOf target)⟩, none) := by
  induction names with
  | nil => intro idx s h; cases h
  | cons n rest ih =>
      intro idx s h
      by_cases hn : n = target
      · subst hn
        simp [scanSheets, List.indexOf_cons_self]
      · have hmem : target ∈ rest := by
          cases h with
          | head => exact absurd rfl hn
          | tail _ h => exact h
        have hstep := ih (idx + 1) { s with sheet := some idx } hmem
        simp only [scanSheets, if_neg hn]
        rw [hstep]
        have harith : idx + 1 + rest.indexOf target =
            idx + Nat.succ (rest.indexOf target) := by omega
        rw [List.indexOf_cons_ne rest hn, ← harith]

/-- When the target occurs nowhere in the scanned suffix, the loop raises
`sheetNotFound`. -/
theorem scanSheets_not_found (names : List String) (target : String) :
    ∀ (idx : Nat) (s : Session), target ∉ names →
      (scanSheets names target idx s).2 = some PyErr.sheetNotFound := by
  induction names with
  | nil => intro idx s _; rfl
  | cons n rest ih =>
      intro idx s h
      have hn : n ≠ target := fun he => h (he ▸ List.mem_cons_self n rest)
      have hmem : target ∉ rest := fun hm => h (List.mem_cons_of_mem n hm)
      simp only [scanSheets, if_neg hn]
      exact ih (idx + 1) { s with sheet := some idx } hmem

/-- Overwriting an existing key keeps the mapping's length. -/
theorem dictInsert_length_of_mem (m : List (String × Val)) (k : String) (v : Val)
    (h : m.any (fun p => p.1 = k) = true) :
    (dictInsert m k v).length = m.length := by
  simp [dictInsert, h]

/-- Inserting a fresh key appends it at the end. -/
theorem dictInsert_of_not_mem (m : List (String × Val)) (k : String) (v : Val)
    (h : m.any (fun p => p.1 = k) = false) :
    dictInsert m k v = m ++ [(k, v)] := by
  simp [dictInsert, h]

/-- Each key of `dictInsert m k v` is a key of `m` or the inserted key. -/
theorem dictKeys_dictInsert (m : List (String × Val)) (k : String) (v : Val) :
    ∀ x ∈ dictKeys (dictInsert m k v), x ∈ dictKeys m ∨ x = k := by
  intro x hx
  unfold dictInsert at hx
  split at hx
  · left
    unfold dictKeys at hx ⊢
    rw [List.map_map] at hx
    have hfst : (Prod.fst ∘ fun p : String × Val => if p.1 = k then (p.1, v) else p)
        = Prod.fst := by
      funext p
      by_cases hp : p.1 = k <;> simp [Function.comp, hp]
    rwa [hfst] at hx
  · unfold dictKeys at hx ⊢
    rw [List.map_append] at hx
    rcases List.mem_append.1 hx with h | h
    · exact Or.inl h
    · right
      simpa using h

/-- Every key produced by the Python-dict fold comes from the accumulator
or from the first components of the remaining pairs. -/
theorem dictKeys_foldl (pairs : List (String × Val)) :
    ∀ (m : List (String × Val)) (x : String),
      x ∈ dictKeys (pairs.foldl (fun a kv => dictInsert a kv.1 kv.2) m) →
      x ∈ dictKeys m ∨ x ∈ pairs.map Prod.fst := by
  induction pairs with
  | nil => intro m x hx; exact Or.inl hx
  | cons kv rest ih =>
      intro m x hx
      simp only [List.foldl_cons] at hx
      rcases ih (dictInsert m kv.1 kv.2) x hx with h | h
      · rcases dictKeys_dictInsert m kv.1 kv.2 x h with h' | h'
        · exact Or.inl h'
        · exact Or.inr (by rw [List.map_cons, h']; exact List.mem_cons_self _ _)
      · exact Or.inr (by rw [List.map_cons]; exact List.mem_cons_of_mem _ h)

/-- Every key of `pyDict pairs` is a first component of `pairs`. -/
theorem dictKeys_pyDict (pairs : List (String × Val)) (x : String)
    (hx : x ∈ dictKeys (pyDict pairs)) : x ∈ pairs.map Prod.fst := by
  rcases dictKeys_foldl pairs [] x hx with h | h
  · simp [dictKeys] at h
  · exact h

/-- With pairwise-distinct keys that avoid the accumulator's keys, the
Python-dict fold appends the pairs unchanged. -/
theorem foldl_dictInsert_of_nodup (pairs : List (String × Val)) :
    ∀ m : List (String × Val),
      (pairs.map Prod.fst).Nodup →
      (∀ p ∈ pairs, p.1 ∉ dictKeys m) →
      pairs.foldl (fun a kv => dictInsert a kv.1 kv.2) m = m ++ pairs := by
  induction pairs with
  | nil => intro m _ _; simp
  | cons kv rest ih =>
      intro m hnd hdisj
      have hk : kv.1 ∉ dictKeys m := hdisj kv (List.mem_cons_self _ _)
      have hany : m.any (fun p => p.1 = kv.1) = false := by
        rw [List.any_eq_false]
        intro p hp
        simp only [decide_eq_true_eq]
        intro he
        exact hk (he ▸ List.mem_map_of_mem Prod.fst hp)
      simp only [List.foldl_cons]
      rw [dictInsert_of_not_mem m kv.1 kv.2 hany]
      rw [List.map_cons] at hnd
      have hnd' : (rest.map Prod.fst).Nodup := (List.nodup_cons.1 hnd).2
      have hknotin : kv.1 ∉ rest.map Prod.fst := (List.nodup_cons.1 hnd).1
      have hdisj' : ∀ p ∈ rest, p.1 ∉ dictKeys (m ++ [(kv.1, kv.2)]) := by
        intro p hp hmem
        unfold dictKeys at hmem
        rw [List.map_append] at hmem
        rcases List.mem_append.1 hmem with h | h
        · exact hdisj p (List.mem_cons_of_mem _ hp) h
        · have hpk : p.1 = kv.1 := by simpa using h
          exact hknotin (hpk ▸ List.mem_map_of_mem Prod.fst hp)
      rw [ih (m ++ [(kv.1, kv.2)]) hnd' hdisj']
      simp

/-- With pairwise-distinct keys, Python's `dict` keeps the pairs as given. -/
theorem pyDict_eq_of_nodup (pairs : List (String × Val))
    (hnd : (pairs.map Prod.fst).Nodup) : pyDict pairs = pairs := by
  have h := foldl_dictInsert_of_nodup pairs [] hnd
    (by intro p _ hmem; simp [dictKeys] at hmem)
  simpa [pyDict] using h

/-- The first components of a zip form a sublist of the left argument. -/
theorem map_fst_zip_sublist : ∀ (l1 : List String) (l2 : List Val),
    ((l1.zip l2).map Prod.fst).Sublist l1 := by
  intro l1
  induction l1 with
  | nil => intro l2; simp
  | cons a l ih =>
      intro l2
      cases l2 with
      | nil => simp
      | cons b l2 =>
          simp only [List.zip_cons_cons, List.map_cons]
          exact List.Sublist.cons₂ a (ih l2)

/-- C1 (counterexample): the Extent Scanner counts leading *truthy* cells,
not leading populated cells. At `zeroFirstGrid`, row 1 has exactly 2
populated leading cells (holding 0 and 5) followed by an empty cell, yet
`get_columns_count` returns 0, not 2: the populated value 0 is falsy under
the `while ... .value:` test and stops the scan at once. -/
theorem C1_counterexample :
    (zeroFirstGrid 1 1).isEmpty = false ∧
    (zeroFirstGrid 1 2).isEmpty = false ∧
    (zeroFirstGrid 1 3).isEmpty = true ∧
    get_columns_count zeroFirstGrid 10 = some 0 ∧
    get_columns_count zeroFirstGrid 10 ≠ some 2 := by
  decide

/-- C1 (amended): for every sheet whose row 1 has exactly n leading cells
with truthy values followed by a falsy cell, `get_columns_count` returns
exactly n (for any fuel > n), and symmetrically `get_rows_count` counts the
leading truthy cells of column 1; in particular, with cell (1,1) falsy —
e.g. empty — both return 0. -/
theorem C1_extent_counts (g : Grid) (n m : Nat)
    (hc : ∀ k, 1 ≤ k → k ≤ n → (g 1 k).truthy = true)
    (hc0 : (g 1 (n + 1)).truthy = false)
    (hr : ∀ k, 1 ≤ k → k ≤ m → (g k 1).truthy = true)
    (hr0 : (g (m + 1) 1).truthy = false) :
    ∀ fuel, n < fuel → m < fuel →
      get_columns_count g fuel = some n ∧ get_rows_count g fuel = some m := by
  intro fuel hn hm
  constructor
  · have h := probe_stops (fun c => g 1 c) n 1 fuel
      (fun i hi => hc (1 + i) (by omega) (by omega))
      (by show (g 1 (1 + n)).truthy = false
          rw [Nat.add_comm 1 n]
          exact hc0)
      hn
    rw [show (1 : Nat) + n - 1 = n by omega] at h
    exact h
  · have h := probe_stops (fun r => g r 1) m 1 fuel
      (fun i hi => hr (1 + i) (by omega) (by omega))
      (by show (g (1 + m) 1).truthy = false
          rw [Nat.add_comm 1 m]
          exact hr0)
      hm
    rw [show (1 : Nat) + m - 1 = m by omega] at h
    exact h

/-- Witness for C1_extent_counts: the §8 scenario sheet has 2 truthy leading
columns and 3 truthy leading rows. -/
theorem C1_extent_counts_witness :
    get_columns_count demoGrid 4 = some 2 ∧ get_rows_count demoGrid 4 = some 3 :=
  C1_extent_counts demoGrid 2 3
    (by intro k h1 h2
        rcases (by omega : k = 1 ∨ k = 2) with h | h <;> subst h <;> decide)
    (by decide)
    (by intro k h1 h2
        rcases (by omega : k = 1 ∨ k = 2 ∨ k = 3) with h | h | h <;>
          subst h <;> decide)
    (by decide)
    4 (by decide) (by decide)

/-- C9 (counterexample): `noEmptyGrid` has no empty cell in row 1 — every
cell there is populated — yet the column probe terminates, returning
`some 1` after stopping at the falsy populated value 0 in cell (1,2); the
claim says the probe should not terminate on such a sheet. -/
theorem C9_counterexample :
    rowOnePopulated noEmptyGrid ∧ get_columns_count noEmptyGrid 10 = some 1 := by
  constructor
  · intro c hc
    by_cases h : c = 2 <;> simp [noEmptyGrid, Val.isEmpty, h]
  · decide

/-- C9 (amended): the probe stops exactly at falsy cells: if the first falsy
cell of row 1 sits at column e (all earlier columns truthy), the column
probe terminates for every fuel ≥ e and returns e − 1, likewise for rows;
and on a sheet whose probed row (or column) is entirely truthy the probe
returns no result at any fuel. -/
theorem C9_extent_termination (g : Grid) (e1 e2 : Nat)
    (he1 : 1 ≤ e1) (hc0 : (g 1 e1).truthy = false)
    (hc : ∀ k, 1 ≤ k → k < e1 → (g 1 k).truthy = true)
    (he2 : 1 ≤ e2) (hr0 : (g e2 1).truthy = false)
    (hr : ∀ k, 1 ≤ k → k < e2 → (g k 1).truthy = true) :
    (∀ fuel, e1 ≤ fuel → get_columns_count g fuel = some (e1 - 1)) ∧
    (∀ fuel, e2 ≤ fuel → get_rows_count g fuel = some (e2 - 1)) ∧
    (∀ g' : Grid, (∀ k, 1 ≤ k → (g' 1 k).truthy = true) →
      ∀ fuel, get_columns_count g' fuel = none) ∧
    (∀ g' : Grid, (∀ k, 1 ≤ k → (g' k 1).truthy = true) →
      ∀ fuel, get_rows_count g' fuel = none) := by
  refine ⟨?_, ?_, ?_, ?_⟩
  · intro fuel hfuel
    have h := probe_stops (fun c => g 1 c) (e1 - 1) 1 fuel
      (fun i hi => hc (1 + i) (by omega) (by omega))
      (by show (g 1 (1 + (e1 - 1))).truthy = false
          rw [show 1 + (e1 - 1) = e1 by omega]
          exact hc0)
      (by omega)
    rw [show (1 : Nat) + (e1 - 1) - 1 = e1 - 1 by omega] at h
    exact h
  · intro fuel hfuel
    have h := probe_stops (fun r => g r 1) (e2 - 1) 1 fuel
      (fun i hi => hr (1 + i) (by omega) (by omega))
      (by show (g (1 + (e2 - 1)) 1).truthy = false
          rw [show 1 + (e2 - 1) = e2 by omega]
          exact hr0)
      (by omega)
    rw [show (1 : Nat) + (e2 - 1) - 1 = e2 - 1 by omega] at h
    exact h
  · intro g' hall fuel
    exact probe_diverges (fun c => g' 1 c) 1 (fun i hi => hall i hi) fuel
  · intro g' hall fuel
    exact probe_diverges (fun r => g' r 1) 1 (fun i hi => hall i hi) fuel

/-- Witness for C9_extent_termination: on the entirely empty sheet the first
falsy cell of row 1 and of column 1 is at index 1, and the probes stop with
count 0 already at fuel 1. -/
theorem C9_extent_termination_witness :
    get_columns_count emptyGrid 1 = some 0 :=
  (C9_extent_termination emptyGrid 1 1 (by decide) (by decide)
    (by intro k h1 h2; omega) (by decide) (by decide)
    (by intro k h1 h2; omega)).1 1 (by decide)

/-- C10 (confirmed): passing `""` as the sheet name is treated exactly like
omitting it: `set_sheet` binds sheet index 1 without scanning any names and
raises nothing, whatever the workbook's sheets are. -/
theorem C10_empty_name_like_omitted (wb : List String) (s : Session) :
    set_sheet wb (some "") s = set_sheet wb none s ∧
    set_sheet wb none s = (⟨some 1⟩, none) := by
  constructor <;> rfl

/-- C7 (confirmed): on a path that does not reference an existing file,
`open_excel` raises NotFoundExcelFileError before any backend call: the
backend-call trace of the failure path is empty and the session state is
unchanged. -/
theorem C7_open_missing_file (fileExists : String → Bool) (wb : List String)
    (path : String) (name : Option String) (s : Session)
    (h : fileExists path = false) :
    open_excel fileExists wb path name s = ([], (s, some PyErr.fileNotFound)) := by
  simp [open_excel, h]

/-- Witness for C7_open_missing_file at a concrete missing path. -/
theorem C7_open_missing_file_witness :
    open_excel (fun _ => false) ["Sheet1"] "data/missing.xls" none ⟨none⟩ =
      ([], (⟨none⟩, some PyErr.fileNotFound)) :=
  C7_open_missing_file (fun _ => false) ["Sheet1"] "data/missing.xls" none ⟨none⟩ rfl

/-- C2 (counterexample): calling `fetch_all` with `rows_count = 2` supplied
and `columns_count` omitted neither fails nor is rejected: the call
proceeds, silently discards the supplied count, recomputes both counts via
the Extent Scanner and returns all 3 scanned rows of the §8 scenario sheet —
identical to the call with both counts omitted. -/
theorem C2_counterexample :
    fetch_all demoGrid 10 (some 2) none =
      some [[Val.str "Name", Val.str "Age"],
            [Val.str "Alice", Val.num 30],
            [Val.str "Bob", Val.num 25]] ∧
    fetch_all demoGrid 10 (some 2) none = fetch_all demoGrid 10 none none := by
  constructor
  · decide
  · decide

/-- C2 (amended): partial override does not fail: whenever either count is
falsy (omitted, or supplied as 0), `fetch_all` behaves exactly like the call
with both counts omitted, recomputing both via the Extent Scanner; the
supplied counts are used as the end bounds of a region starting at (1,1)
only when both are supplied and nonzero. -/
theorem C2_fetch_all_override (g : Grid) (fuel : Nat) (rc cc : Option Nat) :
    ((truthyNat rc && truthyNat cc) = false →
      fetch_all g fuel rc cc = fetch_all g fuel none none) ∧
    (∀ r c : Nat, 0 < r → 0 < c →
      fetch_all g fuel (some r) (some c) = some (rangeValues g (1, 1) (r, c))) := by
  constructor
  · intro h
    unfold fetch_all
    rw [if_pos h]
    rfl
  · intro r c hrpos hcpos
    have h1 : truthyNat (some r) = true := by
      simp [truthyNat]
      omega
    have h2 : truthyNat (some c) = true := by
      simp [truthyNat]
      omega
    unfold fetch_all
    rw [h1, h2]
    simp [fetch_range, Except.toOption]

/-- Witness for C2_fetch_all_override: a falsy-count call collapses to the
both-omitted call, and a fully supplied call uses the supplied bounds. -/
theorem C2_fetch_all_override_witness :
    fetch_all demoGrid 5 none (some 3) = fetch_all demoGrid 5 none none ∧
    fetch_all demoGrid 5 (some 3) (some 2) =
      some (rangeValues demoGrid (1, 1) (3, 2)) :=
  ⟨(C2_fetch_all_override demoGrid 5 none (some 3)).1 (by decide),
   (C2_fetch_all_override demoGrid 5 (some 3) (some 2)).2 3 2
     (by decide) (by decide)⟩

/-- C3 (counterexample): `set_sheet` is not atomic on failure: on a workbook
with sheets ["A", "B"] and the session bound to sheet 1, requesting the
missing name "Z" raises SheetNotFound but leaves the session bound to sheet
index 2 — not the index 1 it held before the call. -/
theorem C3_counterexample :
    set_sheet ["A", "B"] (some "Z") ⟨some 1⟩ =
      (⟨some 2⟩, some PyErr.sheetNotFound) ∧
    (⟨some 2⟩ : Session) ≠ ⟨some 1⟩ := by
  constructor
  · decide
  · decide

/-- C3 (amended): when `set_sheet` raises SheetNotFound the session state is
not restored: the bound sheet is left at the last scanned index — the
workbook's sheet count — and is unchanged only when the workbook has no
sheets at all (so the scanning loop never ran). -/
theorem C3_set_sheet_failure_state (wb : List String) (t : String)
    (s s' : Session)
    (h : set_sheet wb (some t) s = (s', some PyErr.sheetNotFound)) :
    (wb = [] ∧ s' = s) ∨ s'.sheet = some wb.length := by
  by_cases ht : truthyStr (some t) = false
  · unfold set_sheet at h
    rw [if_pos ht] at h
    simp [Prod.mk.injEq] at h
  · unfold set_sheet at h
    rw [if_neg ht] at h
    rcases scanSheets_error_state wb t 1 s s' h with ⟨h1, h2⟩ | h2
    · exact Or.inl ⟨h1, h2⟩
    · right
      rw [h2]
      congr 1
      omega

/-- Witness for C3_set_sheet_failure_state: a failing scan over the
one-sheet workbook ["A"] leaves the bound sheet at index 1 = sheet count. -/
theorem C3_set_sheet_failure_state_witness :
    (["A"] = ([] : List String) ∧ (⟨some 1⟩ : Session) = ⟨none⟩) ∨
    (⟨some 1⟩ : Session).sheet = some (["A"] : List String).length :=
  C3_set_sheet_failure_state ["A"] "Q" ⟨none⟩ ⟨some 1⟩ (by decide)

/-- C4 (counterexample): the name `""` is supplied, no sheet of the workbook
["Data"] is named `""`, yet `set_sheet` raises nothing and binds sheet
index 1 — contradicting "raises SheetNotFound if and only if no sheet
matches after scanning all sheets". -/
theorem C4_counterexample :
    set_sheet ["Data"] (some "") ⟨none⟩ = (⟨some 1⟩, none) ∧
    "" ∉ ["Data"] := by
  constructor
  · decide
  · decide

/-- C4 (amended): `set_sheet` with the name omitted binds sheet index 1
regardless of names; with a *non-empty* name it scans sheets 1..count in
order comparing names exactly (case-sensitively), binds the first match —
index `indexOf + 1` — and stops without error, and raises SheetNotFound iff
no sheet matches; the empty string is treated like an omitted name. -/
theorem C4_set_sheet_scan (wb : List String) (t : String) (s : Session)
    (ht : t ≠ "") :
    (set_sheet wb none s = (⟨some 1⟩, none)) ∧
    (t ∈ wb → set_sheet wb (some t) s = (⟨some (1 + wb.indexOf t)⟩, none)) ∧
    (t ∉ wb → (set_sheet wb (some t) s).2 = some PyErr.sheetNotFound) := by
  have htr : truthyStr (some t) = true := by
    simp [truthyStr, ht]
  refine ⟨rfl, ?_, ?_⟩
  · intro hmem
    unfold set_sheet
    rw [htr]
    simp only [Bool.true_eq_false, if_false]
    exact scanSheets_found wb t 1 s hmem
  · intro hmem
    unfold set_sheet
    rw [htr]
    simp only [Bool.true_eq_false, if_false]
    exact scanSheets_not_found wb t 1 s hmem

/-- Witness for C4_set_sheet_scan: the sheet named "X" is found at position
2 of the workbook ["A", "X"] and bound there. -/
theorem C4_set_sheet_scan_witness :
    set_sheet ["A", "X"] (some "X") ⟨none⟩ = (⟨some 2⟩, none) :=
  ((C4_set_sheet_scan ["A", "X"] "X" ⟨none⟩ (by decide)).2.1
    (by decide)).trans (by decide)

/-- C5 (counterexample): with the duplicated headers ["a", "a"] and the data
row [1, 2], `get_as_dict` yields the single-entry record {"a": 2}: the later
zip pair overwrites the earlier one, so the record's length 1 falls short of
min(len(headers), len(row)) = 2. -/
theorem C5_counterexample :
    get_as_dict ["a", "a"] [[Val.num 1, Val.num 2]] = [[("a", Val.num 2)]] ∧
    min (["a", "a"] : List String).length
      ([Val.num 1, Val.num 2] : List Val).length = 2 := by
  constructor
  · decide
  · decide

/-- C5 (amended): `get_as_dict` yields one record per data row, and every
record key comes from the headers (keys are never invented; data values
beyond the headers are silently dropped by zip truncation); provided the
header labels are pairwise distinct, each record is exactly the zipped
prefix, of length min(len(headers), len(row)) — with duplicate headers later
pairs overwrite earlier ones and the record is shorter. -/
theorem C5_get_as_dict_records (headers : List String) (data : List (List Val)) :
    (get_as_dict headers data).length = data.length ∧
    (∀ rec ∈ get_as_dict headers data, ∀ kv ∈ rec, kv.1 ∈ headers) ∧
    (headers.Nodup →
      (∀ row ∈ data, pyDict (headers.zip row) = headers.zip row) ∧
      ∀ row ∈ data,
        (pyDict (headers.zip row)).length = min headers.length row.length) := by
  refine ⟨by simp [get_as_dict], ?_, ?_⟩
  · intro rec hrec kv hkv
    rcases List.mem_map.1 hrec with ⟨row, hrow, hexact⟩
    subst hexact
    have hk : kv.1 ∈ dictKeys (pyDict (headers.zip row)) :=
      List.mem_map_of_mem Prod.fst hkv
    exact (map_fst_zip_sublist headers row).subset
      (dictKeys_pyDict (headers.zip row) kv.1 hk)
  · intro hnd
    constructor
    · intro row hrow
      exact pyDict_eq_of_nodup (headers.zip row)
        (List.Nodup.sublist (map_fst_zip_sublist headers row) hnd)
    · intro row hrow
      rw [pyDict_eq_of_nodup (headers.zip row)
        (List.Nodup.sublist (map_fst_zip_sublist headers row) hnd)]
      simp [List.length_zip]

/-- Witness for C5_get_as_dict_records: one record for the one data row of
the §8 scenario, and — the headers being distinct — that record's length is
min(len(headers), len(row)) = 2. -/
theorem C5_get_as_dict_records_witness :
    (get_as_dict ["Name", "Age"] [[Val.str "Alice", Val.num 30]]).length = 1 ∧
    (pyDict ((["Name", "Age"] : List String).zip
        [Val.str "Alice", Val.num 30])).length
      = min (["Name", "Age"] : List String).length
          ([Val.str "Alice", Val.num 30] : List Val).length := by
  have h := C5_get_as_dict_records ["Name", "Age"] [[Val.str "Alice", Val.num 30]]
  exact ⟨h.1, (h.2.2 (by decide)).2 [Val.str "Alice", Val.num 30]
    (List.mem_cons_self _ _)⟩

/-- C6 (counterexample): `fetch_range` never produces an InvalidRegion
error — no such error class exists in src/errors.py.  With the sheet handle
unbound it fails with Python's generic AttributeError, which lies outside
the repository's `CustomBaseException` hierarchy, and on a bound sheet the
malformed region (3,3)–(1,1) (end before start) does not fail at all: it
succeeds with an empty sequence. -/
theorem C6_counterexample :
    fetch_range none (1, 1) (2, 2) = Except.error PyErr.attributeError ∧
    PyErr.attributeError.isCustom = false ∧
    fetch_range (some demoGrid) (3, 3) (1, 1) = Except.ok [] := by
  refine ⟨rfl, rfl, rfl⟩

/-- C6 (amended): `fetch_range` performs no validation of its own: whenever
the sheet handle is unbound it fails, for every requested region, with the
generic AttributeError (not an error of the repository's hierarchy); with a
bound sheet every region — malformed or not — is delegated unchecked to the
backend and yields its values without failure in this layer. -/
theorem C6_fetch_range_no_validation :
    (∀ start e : Nat × Nat,
      fetch_range none start e = Except.error PyErr.attributeError ∧
      PyErr.attributeError.isCustom = false) ∧
    (∀ (g : Grid) (start e : Nat × Nat),
      fetch_range (some g) start e = Except.ok (rangeValues g start e)) :=
  ⟨fun _ _ => ⟨rfl, rfl⟩, fun _ _ _ => rfl⟩

/-- C8 (confirmed): on a bound sheet, `fetch_range` over the well-formed
region (1,1)–(r,c) succeeds with exactly r rows in ascending row order, each
of exactly c values in ascending column order: entry (i, j) of the result is
the sheet's cell (1+i, 1+j), so absent cells appear as the empty sentinel
value rather than being omitted. -/
theorem C8_fetch_range_shape (g : Grid) (r c : Nat) (hr : 1 ≤ r) (hc : 1 ≤ c) :
    fetch_range (some g) (1, 1) (r, c) = Except.ok (rangeValues g (1, 1) (r, c)) ∧
    (rangeValues g (1, 1) (r, c)).length = r ∧
    (∀ row ∈ rangeValues g (1, 1) (r, c), row.length = c) ∧
    ∀ i j, i < r → j < c →
      ((rangeValues g (1, 1) (r, c)).getD i []).getD j Val.empty
        = g (1 + i) (1 + j) := by
  refine ⟨rfl, ?_, ?_, ?_⟩
  · simp [rangeValues]
  · intro row hrow
    unfold rangeValues at hrow
    rcases List.mem_map.1 hrow with ⟨i, hi, hrow'⟩
    subst hrow'
    simp
  · intro i j hi hj
    have hrow : (rangeValues g (1, 1) (r, c)).getD i []
        = (List.range (c + 1 - 1)).map (fun j => g (1 + i) (1 + j)) := by
      unfold rangeValues
      rw [List.getD_eq_getElem _ _ (by simpa using hi)]
      rw [List.getElem_map, List.getElem_range]
    rw [hrow]
    rw [List.getD_eq_getElem _ _ (by simpa using hj)]
    rw [List.getElem_map, List.getElem_range]

/-- Witness for C8_fetch_range_shape: the full §8 scenario region
(1,1)–(3,2) has exactly 3 rows. -/
theorem C8_fetch_range_shape_witness :
    (rangeValues demoGrid (1, 1) (3, 2)).length = 3 :=
  (C8_fetch_range_shape demoGrid 3 2 (by decide) (by decide)).2.1
